import Mathlib

/-!
Shallow embedding of `var/spack/repos/builtin/packages/geosgcm/package.py`
(the Spack package recipe `Geosgcm`), covering:

* `Geosgcm.cmake_args`    (lines 91-138): the configuration resolver that
  turns variants, the compiler identity, the probed gfortran major version
  and the selected MPI provider into an ordered list of CMake defines,
  raising `InstallError "Unsupported MPI stack"` for an unknown provider;
* `Geosgcm.clone_mepo`    (lines 77-89): the `run_before("cmake")` hook
  invoking the external `mepo` tool;
* `Geosgcm.setup_build_environment` (lines 140-147): the step that unsets
  the environment variable `BASEDIR`.
-/

namespace Geosgcm

/-- The `build_type` variant's closed value set (`Debug`, `Release`,
`Aggressive`), from the `variant("build_type", ...)` declaration. -/
inductive BuildType where
  | Debug
  | Release
  | Aggressive
deriving DecidableEq, Repr

/-- The package's declared boolean variants plus `build_type`:
`debug`, `f2py`, `extdata2g`, `develop` and `build_type`. -/
structure VariantSet where
  debug : Bool
  f2py : Bool
  extdata2g : Bool
  develop : Bool
  build_type : BuildType
deriving DecidableEq, Repr

/-- The concrete provider satisfying the abstract `mpi` dependency.  The
five constructors correspond to the five `self.spec.satisfies("^...")`
checks of `cmake_args`; `other` is any provider matching none of them. -/
inductive MpiProvider where
  | mpich
  | openmpi
  | intel_oneapi_mpi
  | mvapich
  | mpt
  | other (name : String)
deriving DecidableEq, Repr

/-- The value carried by a CMake define: a boolean toggle (rendered
`ON`/`OFF` by Spack) or a plain string/path value. -/
inductive DefineVal where
  | onOff (b : Bool)
  | str (s : String)
deriving DecidableEq, Repr

/-- A single `-D<key>=<value>` CMake define, as a key/value pair. -/
abbrev Define := String × DefineVal

/-- Modelled from the spec: Spack's `define_from_variant` helper (not under
`src/`), which translates a boolean variant's resolved value into a named
CMake toggle define (`ON` when true, `OFF` when false). -/
def define_from_variant (name : String) (value : Bool) : Define :=
  (name, DefineVal.onOff value)

/-- Modelled from the spec: Spack's `define` helper (not under `src/`),
which produces a string-valued CMake define. -/
def define (name : String) (value : String) : Define :=
  (name, DefineVal.str value)

/-- Lines 99-109 of `cmake_args`: the gfortran compatibility flag list.
Empty unless the compiler name is one of `gcc`, `clang`, `apple-clang`;
in the family, `-ffree-line-length-none` is always appended, and for a
probed major version `>= 10` the two legacy-tolerance flags follow. -/
def gfortranFlags (compilerName : String) (gfortranMajorVer : Nat) : List String :=
  if compilerName ∈ ["gcc", "clang", "apple-clang"] then
    "-ffree-line-length-none" ::
      (if gfortranMajorVer ≥ 10 then ["-fallow-invalid-boz", "-fallow-argument-mismatch"]
       else [])
  else []

/-- `Geosgcm.cmake_args` (lines 91-138).  Inputs are the resolved variants,
the compiler name (`self.compiler.name`), the probed gfortran major
version (the `int(... "-dumpversion" ...)` result), the MPI provider the
spec resolved to, and the `esmf` dependency's cmake module path
(`self.spec["esmf"].prefix.cmake`).  Returns the ordered define list, or
the `InstallError "Unsupported MPI stack"` message for an unknown MPI
provider. -/
def cmake_args (v : VariantSet) (compilerName : String) (gfortranMajorVer : Nat)
    (mpi : MpiProvider) (esmfCmakePath : String) : Except String (List Define) :=
  let args : List Define :=
    [ define_from_variant "USE_F2PY" v.f2py,
      define_from_variant "USE_EXTDATA2G" v.extdata2g,
      define "CMAKE_MODULE_PATH" esmfCmakePath ]
  let fflags : List String := gfortranFlags compilerName gfortranMajorVer
  let args : List Define :=
    if fflags.isEmpty then args
    else args ++ [define "CMAKE_Fortran_FLAGS" (String.intercalate " " fflags)]
  match mpi with
  | MpiProvider.mpich => Except.ok (args ++ [define "MPI_STACK" "mpich"])
  | MpiProvider.openmpi => Except.ok (args ++ [define "MPI_STACK" "openmpi"])
  | MpiProvider.intel_oneapi_mpi => Except.ok (args ++ [define "MPI_STACK" "intelmpi"])
  | MpiProvider.mvapich => Except.ok (args ++ [define "MPI_STACK" "mvapich"])
  | MpiProvider.mpt => Except.ok (args ++ [define "MPI_STACK" "mpt"])
  | MpiProvider.other _ => Except.error "Unsupported MPI stack"

/-- The short identifier string the `if`/`elif` chain of `cmake_args`
emits for each supported MPI provider; `none` for an unsupported one. -/
def mpiStackId : MpiProvider → Option String
  | MpiProvider.mpich => some "mpich"
  | MpiProvider.openmpi => some "openmpi"
  | MpiProvider.intel_oneapi_mpi => some "intelmpi"
  | MpiProvider.mvapich => some "mvapich"
  | MpiProvider.mpt => some "mpt"
  | MpiProvider.other _ => none

/-- The define list `cmake_args` has accumulated just before the MPI
`if`/`elif` chain runs (lines 92-111): the three initial defines, plus
`CMAKE_Fortran_FLAGS` exactly when the flag list is non-empty. -/
def mkArgs (v : VariantSet) (compilerName : String) (gfortranMajorVer : Nat)
    (esmfCmakePath : String) : List Define :=
  [ ("USE_F2PY", DefineVal.onOff v.f2py),
    ("USE_EXTDATA2G", DefineVal.onOff v.extdata2g),
    ("CMAKE_MODULE_PATH", DefineVal.str esmfCmakePath) ] ++
  (if (gfortranFlags compilerName gfortranMajorVer).isEmpty then []
   else [("CMAKE_Fortran_FLAGS",
           DefineVal.str (String.intercalate " " (gfortranFlags compilerName gfortranMajorVer)))])

/-- One invocation of an external tool: the tool, its argument list, and
the working directory it runs in. -/
structure Invocation where
  tool : String
  args : List String
  cwd : String
deriving DecidableEq, Repr

/-- `Geosgcm.clone_mepo` (lines 77-89): inside
`working_dir(self.stage.source_path)`, run
`mepo("clone", "--partial=blobless")`.  Returns the invocation trace the
hook performs, given the stage's source path. -/
def clone_mepo (sourcePath : String) : List Invocation :=
  [⟨"mepo", ["clone", "--partial=blobless"], sourcePath⟩]

/-- Modelled from the spec: the effect of the `@run_before("cmake")`
decorator (Spack framework code, not under `src/`) — the hook's
invocations run to completion before the cmake configure invocation. -/
def build_pipeline (sourcePath : String) (cmakeConfigure : Invocation) : List Invocation :=
  clone_mepo sourcePath ++ [cmakeConfigure]

/-- A process environment: a partial map from variable names to values. -/
abbrev Env := String → Option String

/-- Modelled from the spec: the effect of Spack's `env.unset(name)`
modification (framework code, not under `src/`) on an environment —
the named variable is removed; unsetting an absent variable is a no-op. -/
def unsetEnv (e : Env) (name : String) : Env :=
  fun k => if k = name then none else e k

/-- `Geosgcm.setup_build_environment` (lines 140-147): unset `BASEDIR`. -/
def setup_build_environment (e : Env) : Env :=
  unsetEnv e "BASEDIR"

/-- A concrete sample environment used to exercise the environment step:
`PATH` is set, everything else (in particular `BASEDIR`) is absent. -/
def sampleEnv : Env :=
  fun k => if k = "PATH" then some "/usr/bin" else none

theorem cmake_args_eq (v : VariantSet) (cn : String) (ver : Nat) (mpi : MpiProvider)
    (p : String) :
    cmake_args v cn ver mpi p =
      match mpiStackId mpi with
      | some s => Except.ok (mkArgs v cn ver p ++ [("MPI_STACK", DefineVal.str s)])
      | none => Except.error "Unsupported MPI stack" := by
  cases mpi <;>
    simp only [cmake_args, mkArgs, mpiStackId, define, define_from_variant] <;>
    split <;> simp

theorem mkArgs_filter_mpi (v : VariantSet) (cn : String) (ver : Nat) (p : String) :
    (mkArgs v cn ver p).filter (fun d => d.1 == "MPI_STACK") = [] := by
  unfold mkArgs; split <;> rfl

theorem mkArgs_filter_fortran (v : VariantSet) (cn : String) (ver : Nat) (p : String) :
    (mkArgs v cn ver p).filter (fun d => d.1 == "CMAKE_Fortran_FLAGS") =
      (if (gfortranFlags cn ver).isEmpty then []
       else [("CMAKE_Fortran_FLAGS",
               DefineVal.str (String.intercalate " " (gfortranFlags cn ver)))]) := by
  unfold mkArgs; split <;> rfl

theorem mkArgs_keys (v : VariantSet) (cn : String) (ver : Nat) (p : String) :
    (mkArgs v cn ver p).map Prod.fst =
      ["USE_F2PY", "USE_EXTDATA2G", "CMAKE_MODULE_PATH"] ++
        (if (gfortranFlags cn ver).isEmpty then [] else ["CMAKE_Fortran_FLAGS"]) := by
  unfold mkArgs; split <;> rfl

theorem fortran_mem_mkArgs (v : VariantSet) (cn : String) (ver : Nat) (p : String)
    (val : DefineVal) :
    (("CMAKE_Fortran_FLAGS", val) ∈ mkArgs v cn ver p ↔
      ¬(gfortranFlags cn ver).isEmpty = true ∧
        val = DefineVal.str (String.intercalate " " (gfortranFlags cn ver))) := by
  unfold mkArgs
  split <;> rename_i h <;> simp [h]

theorem gfortranFlags_isEmpty_iff (cn : String) (ver : Nat) :
    ((gfortranFlags cn ver).isEmpty = true ↔
      cn ∉ (["gcc", "clang", "apple-clang"] : List String)) := by
  unfold gfortranFlags
  split <;> rename_i h <;> simp [h]

theorem f2py_mem_mkArgs (v : VariantSet) (cn : String) (ver : Nat) (p : String)
    (val : DefineVal) :
    (("USE_F2PY", val) ∈ mkArgs v cn ver p ↔ val = DefineVal.onOff v.f2py) := by
  unfold mkArgs
  split <;> simp

theorem cmake_args_ok_elim (v : VariantSet) (cn : String) (ver : Nat) (mpi : MpiProvider)
    (p : String) (l : List Define) (hok : cmake_args v cn ver mpi p = Except.ok l) :
    ∃ s, mpiStackId mpi = some s ∧
      l = mkArgs v cn ver p ++ [("MPI_STACK", DefineVal.str s)] := by
  rw [cmake_args_eq] at hok
  cases hm : mpiStackId mpi <;> rw [hm] at hok <;> simp at hok
  rename_i s
  exact ⟨s, rfl, hok.symm⟩

/-- C1: for each of the five enumerated MPI providers, `cmake_args`
succeeds and its result contains exactly one `MPI_STACK` define, valued at
the corresponding short identifier string; for any other provider it
raises `InstallError "Unsupported MPI stack"` and returns no directive. -/
theorem mpi_stack_define_exact (v : VariantSet) (cn : String) (ver : Nat)
    (mpi : MpiProvider) (p : String) :
    (∀ s, mpiStackId mpi = some s →
      ∃ l, cmake_args v cn ver mpi p = Except.ok l ∧
        l.filter (fun d => d.1 == "MPI_STACK") = [("MPI_STACK", DefineVal.str s)]) ∧
    (mpiStackId mpi = none →
      cmake_args v cn ver mpi p = Except.error "Unsupported MPI stack") := by
  constructor
  · intro s hs
    refine ⟨mkArgs v cn ver p ++ [("MPI_STACK", DefineVal.str s)], ?_, ?_⟩
    · rw [cmake_args_eq, hs]
    · rw [List.filter_append, mkArgs_filter_mpi]
      rfl
  · intro hs
    rw [cmake_args_eq, hs]

theorem mpi_stack_define_exact_witness :
    (∃ l, cmake_args ⟨false, false, true, false, BuildType.Release⟩ "gcc" 9
        MpiProvider.mpich "/opt/esmf/cmake" = Except.ok l ∧
      l.filter (fun d => d.1 == "MPI_STACK") = [("MPI_STACK", DefineVal.str "mpich")]) ∧
    cmake_args ⟨false, false, true, false, BuildType.Release⟩ "gcc" 9
        (MpiProvider.other "fujitsu-mpi") "/opt/esmf/cmake" =
      Except.error "Unsupported MPI stack" :=
  ⟨(mpi_stack_define_exact ⟨false, false, true, false, BuildType.Release⟩ "gcc" 9
      MpiProvider.mpich "/opt/esmf/cmake").1 "mpich" rfl,
   (mpi_stack_define_exact ⟨false, false, true, false, BuildType.Release⟩ "gcc" 9
      (MpiProvider.other "fujitsu-mpi") "/opt/esmf/cmake").2 rfl⟩

/-- C2: for a GCC-compatible compiler with probed major version 9 the
directive holds exactly one `CMAKE_Fortran_FLAGS` define whose value is
exactly `-ffree-line-length-none`; with probed major version 10 or
greater, its single value is the three flags joined by single spaces in
the fixed order line-length, BOZ-tolerance, argument-mismatch. -/
theorem gcc_flags_by_version (v : VariantSet) (cn : String) (ver : Nat) (mpi : MpiProvider)
    (p : String) (l : List Define)
    (hcn : cn ∈ (["gcc", "clang", "apple-clang"] : List String))
    (hok : cmake_args v cn ver mpi p = Except.ok l) :
    (ver = 9 → l.filter (fun d => d.1 == "CMAKE_Fortran_FLAGS") =
        [("CMAKE_Fortran_FLAGS", DefineVal.str "-ffree-line-length-none")]) ∧
    (10 ≤ ver → l.filter (fun d => d.1 == "CMAKE_Fortran_FLAGS") =
        [("CMAKE_Fortran_FLAGS", DefineVal.str
            "-ffree-line-length-none -fallow-invalid-boz -fallow-argument-mismatch")]) := by
  obtain ⟨s, hm, hl⟩ := cmake_args_ok_elim v cn ver mpi p l hok
  subst hl
  constructor
  · intro h9
    subst h9
    rw [List.filter_append, mkArgs_filter_fortran]
    have hfl : gfortranFlags cn 9 = ["-ffree-line-length-none"] := by
      unfold gfortranFlags
      rw [if_pos hcn]
      decide
    rw [hfl]
    rfl
  · intro h10
    rw [List.filter_append, mkArgs_filter_fortran]
    have hfl : gfortranFlags cn ver =
        ["-ffree-line-length-none", "-fallow-invalid-boz", "-fallow-argument-mismatch"] := by
      unfold gfortranFlags
      rw [if_pos hcn, if_pos h10]
    rw [hfl]
    rfl

theorem gcc_flags_by_version_witness :
    ([ ("USE_F2PY", DefineVal.onOff false),
       ("USE_EXTDATA2G", DefineVal.onOff true),
       ("CMAKE_MODULE_PATH", DefineVal.str "/opt/esmf/cmake"),
       ("CMAKE_Fortran_FLAGS", DefineVal.str "-ffree-line-length-none"),
       ("MPI_STACK", DefineVal.str "openmpi") ] : List Define).filter
        (fun d => d.1 == "CMAKE_Fortran_FLAGS") =
      [("CMAKE_Fortran_FLAGS", DefineVal.str "-ffree-line-length-none")] :=
  (gcc_flags_by_version ⟨false, false, true, false, BuildType.Release⟩ "gcc" 9
    MpiProvider.openmpi "/opt/esmf/cmake" _ (by decide) rfl).1 rfl

/-- C3: every successful directive is ordered as f2py toggle, extdata2g
toggle, module-path define, then the compiler-flags define exactly when
the flag list is non-empty, and the `MPI_STACK` define last; the
module-path define is present in every successful directive. -/
theorem args_fixed_order (v : VariantSet) (cn : String) (ver : Nat) (mpi : MpiProvider)
    (p : String) (l : List Define)
    (hok : cmake_args v cn ver mpi p = Except.ok l) :
    l.map Prod.fst =
      ["USE_F2PY", "USE_EXTDATA2G", "CMAKE_MODULE_PATH"] ++
        (if (gfortranFlags cn ver).isEmpty then [] else ["CMAKE_Fortran_FLAGS"]) ++
        ["MPI_STACK"] ∧
    ("CMAKE_MODULE_PATH", DefineVal.str p) ∈ l := by
  obtain ⟨s, hm, hl⟩ := cmake_args_ok_elim v cn ver mpi p l hok
  subst hl
  constructor
  · rw [List.map_append, mkArgs_keys]
    simp
  · simp [mkArgs]

theorem args_fixed_order_witness :
    ([ ("USE_F2PY", DefineVal.onOff false),
       ("USE_EXTDATA2G", DefineVal.onOff true),
       ("CMAKE_MODULE_PATH", DefineVal.str "/opt/esmf/cmake"),
       ("MPI_STACK", DefineVal.str "mpt") ] : List Define).map Prod.fst =
      ["USE_F2PY", "USE_EXTDATA2G", "CMAKE_MODULE_PATH"] ++
        (if (gfortranFlags "intel" 9).isEmpty then [] else ["CMAKE_Fortran_FLAGS"]) ++
        ["MPI_STACK"] ∧
    ("CMAKE_MODULE_PATH", DefineVal.str "/opt/esmf/cmake") ∈
      ([ ("USE_F2PY", DefineVal.onOff false),
         ("USE_EXTDATA2G", DefineVal.onOff true),
         ("CMAKE_MODULE_PATH", DefineVal.str "/opt/esmf/cmake"),
         ("MPI_STACK", DefineVal.str "mpt") ] : List Define) :=
  args_fixed_order ⟨false, false, true, false, BuildType.Release⟩ "intel" 9
    MpiProvider.mpt "/opt/esmf/cmake" _ rfl

/-- C4: the resolver is pure and total up to the single unsupported-MPI
failure: equal inputs give identical results, every input either yields a
directive or the one `Unsupported MPI stack` error, and that error occurs
exactly when the MPI provider is outside the five supported stacks. -/
theorem resolver_pure_total (v : VariantSet) (cn : String) (ver : Nat) (mpi : MpiProvider)
    (p : String) :
    cmake_args v cn ver mpi p = cmake_args v cn ver mpi p ∧
    ((∃ l, cmake_args v cn ver mpi p = Except.ok l) ∨
      cmake_args v cn ver mpi p = Except.error "Unsupported MPI stack") ∧
    (cmake_args v cn ver mpi p = Except.error "Unsupported MPI stack" ↔
      mpiStackId mpi = none) := by
  refine ⟨rfl, ?_, ?_⟩
  · rw [cmake_args_eq]
    cases mpi <;> simp [mpiStackId]
  · rw [cmake_args_eq]
    cases mpi <;> simp [mpiStackId]

/-- C5: with `f2py=false` and `extdata2g=true` and a supported MPI
provider, the directive enables `USE_EXTDATA2G` and every `USE_F2PY`
define it carries is disabled. -/
theorem extdata2g_on_f2py_off (v : VariantSet) (cn : String) (ver : Nat)
    (mpi : MpiProvider) (p : String) (s : String)
    (hf : v.f2py = false) (he : v.extdata2g = true) (hm : mpiStackId mpi = some s) :
    ∃ l, cmake_args v cn ver mpi p = Except.ok l ∧
      ("USE_EXTDATA2G", DefineVal.onOff true) ∈ l ∧
      ∀ val, ("USE_F2PY", val) ∈ l → val = DefineVal.onOff false := by
  refine ⟨mkArgs v cn ver p ++ [("MPI_STACK", DefineVal.str s)], ?_, ?_, ?_⟩
  · rw [cmake_args_eq, hm]
  · simp [mkArgs, he]
  · intro val hval
    rw [List.mem_append] at hval
    rcases hval with h | h
    · rw [f2py_mem_mkArgs] at h
      rw [h, hf]
    · simp at h

theorem extdata2g_on_f2py_off_witness :
    ∃ l, cmake_args ⟨false, false, true, false, BuildType.Release⟩ "clang" 12
        MpiProvider.mvapich "/opt/esmf/cmake" = Except.ok l ∧
      ("USE_EXTDATA2G", DefineVal.onOff true) ∈ l ∧
      ∀ val, ("USE_F2PY", val) ∈ l → val = DefineVal.onOff false :=
  extdata2g_on_f2py_off ⟨false, false, true, false, BuildType.Release⟩ "clang" 12
    MpiProvider.mvapich "/opt/esmf/cmake" "mvapich" rfl rfl rfl

/-- C6: for a compiler identity outside `gcc`/`clang`/`apple-clang`, no
successful directive contains a `CMAKE_Fortran_FLAGS` define, whatever
the variants are. -/
theorem fortran_flags_absent_outside_family (v : VariantSet) (cn : String) (ver : Nat)
    (mpi : MpiProvider) (p : String) (l : List Define)
    (hcn : cn ∉ (["gcc", "clang", "apple-clang"] : List String))
    (hok : cmake_args v cn ver mpi p = Except.ok l) :
    ∀ val, ("CMAKE_Fortran_FLAGS", val) ∉ l := by
  obtain ⟨s, hm, hl⟩ := cmake_args_ok_elim v cn ver mpi p l hok
  subst hl
  intro val hval
  rw [List.mem_append] at hval
  rcases hval with h | h
  · rw [fortran_mem_mkArgs] at h
    exact h.1 ((gfortranFlags_isEmpty_iff cn ver).2 hcn)
  · simp at h

theorem fortran_flags_absent_outside_family_witness :
    ("CMAKE_Fortran_FLAGS", DefineVal.str "-ffree-line-length-none") ∉
      ([ ("USE_F2PY", DefineVal.onOff false),
         ("USE_EXTDATA2G", DefineVal.onOff true),
         ("CMAKE_MODULE_PATH", DefineVal.str "/opt/esmf/cmake"),
         ("MPI_STACK", DefineVal.str "mpich") ] : List Define) :=
  fortran_flags_absent_outside_family ⟨false, false, true, false, BuildType.Release⟩
    "intel" 2021 MpiProvider.mpich "/opt/esmf/cmake" _ (by decide) rfl
    (DefineVal.str "-ffree-line-length-none")

/-- C7: the environment-unset step is idempotent — applying it twice
equals applying it once — and when `BASEDIR` is already absent it is a
no-op on the whole environment. -/
theorem unset_basedir_idempotent (e : Env) :
    setup_build_environment (setup_build_environment e) = setup_build_environment e ∧
    (e "BASEDIR" = none → setup_build_environment e = e) := by
  constructor
  · funext k
    by_cases hk : k = "BASEDIR" <;> simp [setup_build_environment, unsetEnv, hk]
  · intro h
    funext k
    by_cases hk : k = "BASEDIR" <;> simp [setup_build_environment, unsetEnv, hk, h]

theorem unset_basedir_idempotent_witness :
    setup_build_environment (setup_build_environment sampleEnv) =
        setup_build_environment sampleEnv ∧
      setup_build_environment sampleEnv = sampleEnv :=
  ⟨(unset_basedir_idempotent sampleEnv).1, (unset_basedir_idempotent sampleEnv).2 rfl⟩

/-- C8: the pre-build hook performs exactly one invocation — the external
`mepo` tool with arguments `clone --partial=blobless`, in the checked-out
source tree — and in the pipeline it precedes the cmake configure step. -/
theorem clone_mepo_once_before_cmake (sp : String) (ci : Invocation) :
    clone_mepo sp = [⟨"mepo", ["clone", "--partial=blobless"], sp⟩] ∧
    build_pipeline sp ci = ⟨"mepo", ["clone", "--partial=blobless"], sp⟩ :: [ci] :=
  ⟨rfl, rfl⟩

/-- C9: `setup_build_environment` mutates only `BASEDIR`: every other
variable keeps its original value, and `BASEDIR` is unset afterwards
irrespective of the starting environment. -/
theorem basedir_only_mutation (e : Env) (k : String) :
    (k ≠ "BASEDIR" → setup_build_environment e k = e k) ∧
    setup_build_environment e "BASEDIR" = none := by
  constructor
  · intro hk
    simp [setup_build_environment, unsetEnv, hk]
  · rfl

theorem basedir_only_mutation_witness :
    setup_build_environment sampleEnv "PATH" = sampleEnv "PATH" ∧
      setup_build_environment sampleEnv "BASEDIR" = none :=
  ⟨(basedir_only_mutation sampleEnv "PATH").1 (by decide),
   (basedir_only_mutation sampleEnv "PATH").2⟩

/-- C10: a successful directive contains a `CMAKE_Fortran_FLAGS` define
exactly when the compiler identity is in the GCC-compatible family, and
any such define has a non-empty value beginning with
`-ffree-line-length-none`. -/
theorem fortran_flags_iff_family (v : VariantSet) (cn : String) (ver : Nat)
    (mpi : MpiProvider) (p : String) (l : List Define)
    (hok : cmake_args v cn ver mpi p = Except.ok l) :
    ((∃ val, ("CMAKE_Fortran_FLAGS", val) ∈ l) ↔
      cn ∈ (["gcc", "clang", "apple-clang"] : List String)) ∧
    ∀ val, ("CMAKE_Fortran_FLAGS", val) ∈ l →
      val ≠ DefineVal.str "" ∧
        ∃ t, val = DefineVal.str ("-ffree-line-length-none" ++ t) := by
  obtain ⟨s, hm, hl⟩ := cmake_args_ok_elim v cn ver mpi p l hok
  subst hl
  have hmem : ∀ val : DefineVal,
      (("CMAKE_Fortran_FLAGS", val) ∈
          mkArgs v cn ver p ++ [("MPI_STACK", DefineVal.str s)] ↔
        ¬(gfortranFlags cn ver).isEmpty = true ∧
          val = DefineVal.str (String.intercalate " " (gfortranFlags cn ver))) := by
    intro val
    rw [List.mem_append, fortran_mem_mkArgs]
    simp
  constructor
  · constructor
    · rintro ⟨val, hval⟩
      rw [hmem] at hval
      by_contra hcn
      exact hval.1 ((gfortranFlags_isEmpty_iff cn ver).2 hcn)
    · intro hcn
      refine ⟨DefineVal.str (String.intercalate " " (gfortranFlags cn ver)), ?_⟩
      rw [hmem]
      refine ⟨?_, rfl⟩
      intro hemp
      exact (gfortranFlags_isEmpty_iff cn ver).1 hemp hcn
  · intro val hval
    rw [hmem] at hval
    obtain ⟨hne, hval⟩ := hval
    have hcn : cn ∈ (["gcc", "clang", "apple-clang"] : List String) := by
      by_contra hcn
      exact hne ((gfortranFlags_isEmpty_iff cn ver).2 hcn)
    have hfl : gfortranFlags cn ver = "-ffree-line-length-none" ::
        (if ver ≥ 10 then ["-fallow-invalid-boz", "-fallow-argument-mismatch"] else []) := by
      unfold gfortranFlags
      rw [if_pos hcn]
    by_cases h10 : ver ≥ 10
    · rw [hfl, if_pos h10] at hval
      subst hval
      exact ⟨by decide, " -fallow-invalid-boz -fallow-argument-mismatch", by decide⟩
    · rw [hfl, if_neg h10] at hval
      subst hval
      exact ⟨by decide, "", by decide⟩

theorem fortran_flags_iff_family_witness :
    ((∃ val, ("CMAKE_Fortran_FLAGS", val) ∈
        ([ ("USE_F2PY", DefineVal.onOff false),
           ("USE_EXTDATA2G", DefineVal.onOff true),
           ("CMAKE_MODULE_PATH", DefineVal.str "/opt/esmf/cmake"),
           ("CMAKE_Fortran_FLAGS", DefineVal.str
             "-ffree-line-length-none -fallow-invalid-boz -fallow-argument-mismatch"),
           ("MPI_STACK", DefineVal.str "intelmpi") ] : List Define)) ↔
      ("apple-clang" : String) ∈ (["gcc", "clang", "apple-clang"] : List String)) ∧
    ∀ val, ("CMAKE_Fortran_FLAGS", val) ∈
        ([ ("USE_F2PY", DefineVal.onOff false),
           ("USE_EXTDATA2G", DefineVal.onOff true),
           ("CMAKE_MODULE_PATH", DefineVal.str "/opt/esmf/cmake"),
           ("CMAKE_Fortran_FLAGS", DefineVal.str
             "-ffree-line-length-none -fallow-invalid-boz -fallow-argument-mismatch"),
           ("MPI_STACK", DefineVal.str "intelmpi") ] : List Define) →
      val ≠ DefineVal.str "" ∧
        ∃ t, val = DefineVal.str ("-ffree-line-length-none" ++ t) :=
  fortran_flags_iff_family ⟨false, false, true, false, BuildType.Release⟩ "apple-clang"
    15 MpiProvider.intel_oneapi_mpi "/opt/esmf/cmake" _ rfl

end Geosgcm
